import Mathlib

/-!
Shallow embedding of the macro-calculation core of the bytemi-fdc-api
service (src/main.go).  Go float64 values are modelled as rationals, and
the Couchbase store behind `getFoodData` is modelled as a function from a
canonical description string to an optional food record (a failed query
and an empty query result both surface as `none`, matching how both make
`processFoodVolume` take its not-found branch).
-/

/-- Portion embeds the `Portion` struct of main.go, keeping the two fields
the calculator reads (`GramWeight`, `PortionDescription`); the identifier,
measure-unit, modifier and sequence-number fields are never consulted by
the logic. -/
structure Portion where
  gramWeight : ℚ
  portionDescription : String
deriving DecidableEq

/-- Nutrient embeds the `Nutrient` struct of main.go; `number` is the
nested `Nutrient.Number` code string and `amount` the per-100g amount
(the nested `Name` field is never consulted). -/
structure Nutrient where
  amount : ℚ
  number : String
deriving DecidableEq

/-- FoodData embeds the `FoodData` struct of main.go; the `FdcID` field is
never consulted by the logic and is omitted. -/
structure FoodData where
  description : String
  foodNutrients : List Nutrient
  foodPortions : List Portion
deriving DecidableEq

/-- Volume embeds the `Volume` request struct of main.go. -/
structure Volume where
  objectName : String
  uncertaintyCups : ℚ
  volumeCups : ℚ
deriving DecidableEq

/-- Macros embeds the `Macros` struct of main.go; the Go zero value of the
struct has every field equal to 0. -/
structure Macros where
  calories : ℚ
  carbs : ℚ
  fat : ℚ
  protein : ℚ
deriving DecidableEq

/-- MacroData embeds the `MacroData` struct of main.go; a Go struct
literal that omits `Macros` and `CalculatedWeight` leaves them at their
zero values, which the embedding writes out explicitly. -/
structure MacroData where
  found : Bool
  macros : Macros
  requestedFood : String
  requestedVolume : ℚ
  calculatedWeight : ℚ
deriving DecidableEq

/-- containsSub decides whether `sub` occurs as a contiguous run inside
the second list, scanning left to right. -/
def containsSub (sub : List Char) : List Char → Bool
  | [] => sub.isEmpty
  | c :: cs => sub.isPrefixOf (c :: cs) || containsSub sub cs

/-- strContains models Go `strings.Contains s sub`: the byte-level scan of
the Go standard library coincides with this character-level scan on the
ASCII strings this service uses. -/
def strContains (s sub : String) : Bool :=
  containsSub sub.data s.data

/-- findCupPortion models the first loop of `processFoodVolume` (main.go
lines 255-262): scan the portions in order and return the gram weight of
the first one whose description contains "1 cup"; 0 when none matches
(`var cupGrams float64` starts at the zero value). -/
def findCupPortion : List Portion → ℚ
  | [] => 0
  | p :: ps =>
    if strContains p.portionDescription "1 cup" then p.gramWeight
    else findCupPortion ps

/-- eggFallbackGrams models the inner loop of `processFoodVolume` (main.go
lines 269-275): return the gram weight of the first portion whose
description equals "1 egg", multiplied by 4.5; 0 when none matches. -/
def eggFallbackGrams : List Portion → ℚ
  | [] => 0
  | p :: ps =>
    if p.portionDescription = "1 egg" then p.gramWeight * (9 / 2)
    else eggFallbackGrams ps

/-- resolveCupGrams models main.go lines 255-276: the "1 cup" scan, then,
when it left `cupGrams` at zero and the object is "egg", the "1 egg"
fallback. -/
def resolveCupGrams (objectName : String) (portions : List Portion) : ℚ :=
  let cupGrams := findCupPortion portions
  if cupGrams = 0 then
    if objectName = "egg" then eggFallbackGrams portions else 0
  else cupGrams

/-- applyNutrient is the body of the loop in `calculateMacrosForGrams`
(main.go lines 305-316): the switch on the nutrient code assigns the
scaled amount to the matching field and leaves the others alone. -/
def applyNutrient (r : ℚ) (m : Macros) (n : Nutrient) : Macros :=
  if n.number = "208" then { m with calories := n.amount * r }
  else if n.number = "203" then { m with protein := n.amount * r }
  else if n.number = "204" then { m with fat := n.amount * r }
  else if n.number = "205" then { m with carbs := n.amount * r }
  else m

set_option linter.unusedVariables false in
/-- calculateMacrosForGrams embeds `calculateMacrosForGrams` of main.go
(lines 301-319); `baseGrams` is received and ignored exactly as in the
source, and the ratio is `calculatedGrams / 100` because nutrients are
stored per 100g. -/
def calculateMacrosForGrams (nutrients : List Nutrient)
    (calculatedGrams baseGrams : ℚ) : Macros :=
  nutrients.foldl (applyNutrient (calculatedGrams / 100)) ⟨0, 0, 0, 0⟩

/-- compute models main.go lines 248-298, the part of `processFoodVolume`
that runs once the lookup produced a record: the spec's contract
`compute(record, object_name, volume_cups)`. -/
def compute (foodData : FoodData) (objectName : String)
    (volumeCups : ℚ) : MacroData :=
  let cupGrams := resolveCupGrams objectName foodData.foodPortions
  if cupGrams = 0 then
    { found := false, macros := ⟨0, 0, 0, 0⟩, requestedFood := objectName,
      requestedVolume := volumeCups, calculatedWeight := 0 }
  else
    let calculatedGrams := volumeCups * cupGrams
    { found := true,
      macros := calculateMacrosForGrams foodData.foodNutrients
        calculatedGrams cupGrams,
      requestedFood := objectName,
      requestedVolume := volumeCups,
      calculatedWeight := calculatedGrams }

/-- getSearchTerm embeds the switch of `getFoodData` (main.go lines
322-332): the closed mapping from recognized object names to canonical
catalog descriptions; any other name yields an error, modelled as
`none`. -/
def getSearchTerm (objectName : String) : Option String :=
  if objectName = "egg" then some "Egg, whole, boiled or poached"
  else if objectName = "rice" then some "Rice, cooked, NFS"
  else if objectName = "banana" then some "Banana, raw"
  else none

/-- getFoodData embeds `getFoodData` of main.go (lines 321-390): resolve
the search term, then query the store; an unknown name returns before any
store access. -/
def getFoodData (store : String → Option FoodData)
    (objectName : String) : Option FoodData :=
  match getSearchTerm objectName with
  | none => none
  | some term => store term

/-- processFoodVolume embeds `processFoodVolume` of main.go (lines
236-299): a failed lookup yields the not-found record, otherwise the
computation runs on the fetched record. -/
def processFoodVolume (store : String → Option FoodData)
    (volume : Volume) : MacroData :=
  match getFoodData store volume.objectName with
  | none =>
    { found := false, macros := ⟨0, 0, 0, 0⟩,
      requestedFood := volume.objectName,
      requestedVolume := volume.volumeCups, calculatedWeight := 0 }
  | some foodData => compute foodData volume.objectName volume.volumeCups

/-- calculateMacros embeds the batch loop of `calculateMacros` (main.go
lines 223-230): starting from an empty slice, append one result per input
volume in order. -/
def calculateMacros (store : String → Option FoodData)
    (volumes : List Volume) : List MacroData :=
  volumes.foldl (fun acc v => acc ++ [processFoodVolume store v]) []

/-- isTracked tells whether a nutrient code is one of the four handled by
the switch in `calculateMacrosForGrams`. -/
def isTracked (n : Nutrient) : Bool :=
  n.number == "208" || n.number == "203" || n.number == "204" ||
    n.number == "205"

/-- scaleMacros multiplies every field of a macro record by `k`; it is a
proof device for the linearity claims, not part of the source. -/
def scaleMacros (k : ℚ) (m : Macros) : Macros :=
  ⟨k * m.calories, k * m.carbs, k * m.fat, k * m.protein⟩

lemma findCupPortion_first (pre : List Portion) (p : Portion)
    (post : List Portion)
    (hpre : ∀ q ∈ pre, strContains q.portionDescription "1 cup" = false)
    (hp : strContains p.portionDescription "1 cup" = true) :
    findCupPortion (pre ++ p :: post) = p.gramWeight := by
  induction pre with
  | nil => simp [findCupPortion, hp]
  | cons q qs ih =>
    have hq := hpre q (by simp)
    simpa [findCupPortion, hq] using
      ih (fun x hx => hpre x (by simp [hx]))

lemma eggFallbackGrams_first (pre : List Portion) (W : ℚ)
    (post : List Portion)
    (hpre : ∀ q ∈ pre, q.portionDescription ≠ "1 egg") :
    eggFallbackGrams (pre ++ ⟨W, "1 egg"⟩ :: post) = W * (9 / 2) := by
  induction pre with
  | nil => simp [eggFallbackGrams]
  | cons q qs ih =>
    have hq := hpre q (by simp)
    simpa [eggFallbackGrams, hq] using
      ih (fun x hx => hpre x (by simp [hx]))

lemma applyNutrient_calories (r : ℚ) (m : Macros) (n : Nutrient) :
    (applyNutrient r m n).calories =
      if n.number = "208" then n.amount * r else m.calories := by
  unfold applyNutrient
  split_ifs <;> simp_all

lemma applyNutrient_protein (r : ℚ) (m : Macros) (n : Nutrient) :
    (applyNutrient r m n).protein =
      if n.number = "203" then n.amount * r else m.protein := by
  unfold applyNutrient
  split_ifs <;> simp_all

lemma applyNutrient_fat (r : ℚ) (m : Macros) (n : Nutrient) :
    (applyNutrient r m n).fat =
      if n.number = "204" then n.amount * r else m.fat := by
  unfold applyNutrient
  split_ifs <;> simp_all

lemma applyNutrient_carbs (r : ℚ) (m : Macros) (n : Nutrient) :
    (applyNutrient r m n).carbs =
      if n.number = "205" then n.amount * r else m.carbs := by
  unfold applyNutrient
  split_ifs <;> simp_all

lemma foldl_calories (r : ℚ) (nuts : List Nutrient) : ∀ m : Macros,
    (nuts.foldl (applyNutrient r) m).calories =
      (nuts.filter fun n => n.number == "208").foldl
        (fun _ n => n.amount * r) m.calories := by
  induction nuts with
  | nil => intro m; rfl
  | cons n ns ih =>
    intro m
    rw [List.foldl_cons, List.filter_cons, ih]
    by_cases h : n.number = "208"
    · simp [h, applyNutrient_calories]
    · simp [h, applyNutrient_calories]

lemma foldl_protein (r : ℚ) (nuts : List Nutrient) : ∀ m : Macros,
    (nuts.foldl (applyNutrient r) m).protein =
      (nuts.filter fun n => n.number == "203").foldl
        (fun _ n => n.amount * r) m.protein := by
  induction nuts with
  | nil => intro m; rfl
  | cons n ns ih =>
    intro m
    rw [List.foldl_cons, List.filter_cons, ih]
    by_cases h : n.number = "203"
    · simp [h, applyNutrient_protein]
    · simp [h, applyNutrient_protein]

lemma foldl_fat (r : ℚ) (nuts : List Nutrient) : ∀ m : Macros,
    (nuts.foldl (applyNutrient r) m).fat =
      (nuts.filter fun n => n.number == "204").foldl
        (fun _ n => n.amount * r) m.fat := by
  induction nuts with
  | nil => intro m; rfl
  | cons n ns ih =>
    intro m
    rw [List.foldl_cons, List.filter_cons, ih]
    by_cases h : n.number = "204"
    · simp [h, applyNutrient_fat]
    · simp [h, applyNutrient_fat]

lemma foldl_carbs (r : ℚ) (nuts : List Nutrient) : ∀ m : Macros,
    (nuts.foldl (applyNutrient r) m).carbs =
      (nuts.filter fun n => n.number == "205").foldl
        (fun _ n => n.amount * r) m.carbs := by
  induction nuts with
  | nil => intro m; rfl
  | cons n ns ih =>
    intro m
    rw [List.foldl_cons, List.filter_cons, ih]
    by_cases h : n.number = "205"
    · simp [h, applyNutrient_carbs]
    · simp [h, applyNutrient_carbs]

lemma foldl_filter_tracked (r : ℚ) (nuts : List Nutrient) : ∀ m : Macros,
    (nuts.filter isTracked).foldl (applyNutrient r) m =
      nuts.foldl (applyNutrient r) m := by
  induction nuts with
  | nil => intro m; rfl
  | cons n ns ih =>
    intro m
    rw [List.filter_cons]
    by_cases h : isTracked n = true
    · rw [if_pos h, List.foldl_cons, List.foldl_cons, ih]
    · have hid : applyNutrient r m n = m := by
        simp [isTracked] at h
        obtain ⟨⟨⟨h1, h2⟩, h3⟩, h4⟩ := h
        simp [applyNutrient, h1, h2, h3, h4]
      rw [if_neg (by simp [h]), List.foldl_cons, hid, ih]

lemma foldl_applyNutrient_scale (k r : ℚ) (nuts : List Nutrient) :
    ∀ m : Macros,
      nuts.foldl (applyNutrient (k * r)) (scaleMacros k m) =
        scaleMacros k (nuts.foldl (applyNutrient r) m) := by
  induction nuts with
  | nil => intro m; rfl
  | cons n ns ih =>
    intro m
    rw [List.foldl_cons, List.foldl_cons, ← ih]
    congr 1
    unfold applyNutrient scaleMacros
    split_ifs <;> simp <;> ring

lemma calculateMacrosForGrams_zero (nuts : List Nutrient) (b : ℚ) :
    calculateMacrosForGrams nuts 0 b = ⟨0, 0, 0, 0⟩ := by
  have h := foldl_applyNutrient_scale 0 1 nuts ⟨0, 0, 0, 0⟩
  simpa [calculateMacrosForGrams, scaleMacros] using h

lemma foldl_append_single {α β : Type} (f : α → β) (l : List α) :
    ∀ init : List β,
      l.foldl (fun acc v => acc ++ [f v]) init = init ++ l.map f := by
  induction l with
  | nil => intro init; simp
  | cons v vs ih => intro init; simp [List.foldl_cons, ih]

lemma calculateMacros_eq_map (store : String → Option FoodData)
    (volumes : List Volume) :
    calculateMacros store volumes =
      volumes.map (processFoodVolume store) := by
  simpa [calculateMacros] using
    foldl_append_single (processFoodVolume store) volumes []

lemma compute_of_ne_zero (foodData : FoodData) (objectName : String)
    (v : ℚ) (h : resolveCupGrams objectName foodData.foodPortions ≠ 0) :
    compute foodData objectName v =
      ⟨true,
        calculateMacrosForGrams foodData.foodNutrients
          (v * resolveCupGrams objectName foodData.foodPortions)
          (resolveCupGrams objectName foodData.foodPortions),
        objectName, v,
        v * resolveCupGrams objectName foodData.foodPortions⟩ := by
  simp [compute, h]

lemma compute_of_zero (foodData : FoodData) (objectName : String)
    (v : ℚ) (h : resolveCupGrams objectName foodData.foodPortions = 0) :
    compute foodData objectName v =
      ⟨false, ⟨0, 0, 0, 0⟩, objectName, v, 0⟩ := by
  simp [compute, h]

/-- Claim C1 (amended): when the first portion whose description contains
the substring "1 cup" has a non-zero gram weight, `compute` uses exactly
that portion, returns `found = true`, and the calculated weight is
`volume_cups * cup_grams`; portions after the first match, matching or
not, never affect the result. -/
theorem first_cup_portion_selected (desc : String) (nuts : List Nutrient)
    (pre post : List Portion) (p : Portion) (name : String) (v : ℚ)
    (hpre : ∀ q ∈ pre, strContains q.portionDescription "1 cup" = false)
    (hp : strContains p.portionDescription "1 cup" = true)
    (hw : p.gramWeight ≠ 0) :
    (compute ⟨desc, nuts, pre ++ p :: post⟩ name v).found = true ∧
    (compute ⟨desc, nuts, pre ++ p :: post⟩ name v).calculatedWeight =
      v * p.gramWeight := by
  have hfind : findCupPortion (pre ++ p :: post) = p.gramWeight :=
    findCupPortion_first pre p post hpre hp
  have hres : resolveCupGrams name (pre ++ p :: post) = p.gramWeight := by
    simp [resolveCupGrams, hfind, hw]
  have h := compute_of_ne_zero ⟨desc, nuts, pre ++ p :: post⟩ name v
    (by simpa [hres] using hw)
  rw [h]
  simp [hres]

/-- Claim C1 witness: the amended statement applied to the banana record
of the spec scenario. -/
theorem first_cup_portion_selected_check :
    (compute ⟨"Banana, raw", [], [⟨150, "1 cup, sliced"⟩]⟩ "banana"
        1).found = true ∧
    (compute ⟨"Banana, raw", [], [⟨150, "1 cup, sliced"⟩]⟩ "banana"
        1).calculatedWeight = 1 * (150 : ℚ) :=
  first_cup_portion_selected "Banana, raw" [] [] []
    ⟨150, "1 cup, sliced"⟩ "banana" 1 (by simp) (by decide) (by norm_num)

/-- Claim C1 counterexample: a record can hold a portion whose description
contains "1 cup" while `compute` still returns `found = false` — the code
treats a zero gram weight on the selected portion as "no conversion
found", contradicting the claim's unconditional `found = true`. -/
theorem zero_weight_cup_portion_not_found :
    ([(⟨0, "1 cup"⟩ : Portion)].any
      (fun q => strContains q.portionDescription "1 cup")) = true ∧
    (compute ⟨"Rice, cooked, NFS", [], [⟨0, "1 cup"⟩]⟩ "rice"
        1).found = false := by
  constructor
  · decide
  · have h : strContains "1 cup" "1 cup" = true := by decide
    have hres : resolveCupGrams "rice" [⟨0, "1 cup"⟩] = 0 := by
      simp [resolveCupGrams, findCupPortion, h]
    rw [compute_of_zero _ _ _ hres]

/-- Claim C2 (amended): the egg fallback applies exactly when the "1 cup"
scan left `cup_grams` at zero (no portion contains "1 cup", or the first
matching one weighs zero grams) and the object name is "egg"; it then
takes the first portion whose description equals "1 egg" and uses
`cup_grams = gram_weight * 4.5`, so the calculated weight at volume `v`
is `v * (4.5 * W)`; for every other object name a zero scan result means
`found = false`. -/
theorem egg_fallback_on_zero_scan (desc : String) (nuts : List Nutrient)
    (pre post : List Portion) (W v : ℚ)
    (hscan : findCupPortion (pre ++ ⟨W, "1 egg"⟩ :: post) = 0)
    (hpre : ∀ q ∈ pre, q.portionDescription ≠ "1 egg") :
    (compute ⟨desc, nuts, pre ++ ⟨W, "1 egg"⟩ :: post⟩ "egg"
        v).calculatedWeight = v * ((9 / 2) * W) ∧
    (∀ name, name ≠ "egg" → ∀ d2 n2 portions,
      findCupPortion portions = 0 →
      (compute ⟨d2, n2, portions⟩ name v).found = false) := by
  constructor
  · have hegg : eggFallbackGrams (pre ++ ⟨W, "1 egg"⟩ :: post) =
        W * (9 / 2) := eggFallbackGrams_first pre W post hpre
    have hres : resolveCupGrams "egg" (pre ++ ⟨W, "1 egg"⟩ :: post) =
        W * (9 / 2) := by
      simp [resolveCupGrams, hscan, hegg]
    by_cases hW : W = 0
    · subst hW
      have hres0 : resolveCupGrams "egg" (pre ++ ⟨0, "1 egg"⟩ :: post) = 0 := by
        simpa using hres
      rw [compute_of_zero _ _ _ hres0]
      simp
    · have hne : resolveCupGrams "egg" (pre ++ ⟨W, "1 egg"⟩ :: post) ≠ 0 := by
        rw [hres]
        intro hcon
        rcases mul_eq_zero.mp hcon with h | h
        · exact hW h
        · norm_num at h
      rw [compute_of_ne_zero _ _ _ hne]
      dsimp only
      rw [hres]
      ring
  · intro name hname d2 n2 portions hzero
    have hres : resolveCupGrams name portions = 0 := by
      simp [resolveCupGrams, hzero, hname]
    rw [compute_of_zero _ _ _ hres]

/-- Claim C2 witness: the amended statement applied to the egg record of
the spec scenario at volume 1. -/
theorem egg_fallback_on_zero_scan_check :
    (compute ⟨"Egg, whole, boiled or poached", [], [⟨50, "1 egg"⟩]⟩
        "egg" 1).calculatedWeight = 1 * ((9 / 2) * 50) :=
  (egg_fallback_on_zero_scan "Egg, whole, boiled or poached" [] [] [] 50 1
    (by
      have h : strContains "1 egg" "1 cup" = false := by decide
      simp [findCupPortion, h])
    (by simp)).1

/-- Claim C2 counterexample: the fallback also fires when a "1 cup"
portion IS present in the record but carries gram weight zero — here the
record holds a "1 cup" portion, yet compute("egg", 1) succeeds with the
weight derived from the "1 egg" portion (50 * 4.5 = 225), so the fallback
applied although a "1 cup" portion was found in the record. -/
theorem egg_fallback_despite_cup_portion :
    ([(⟨0, "1 cup"⟩ : Portion), ⟨50, "1 egg"⟩].any
      (fun q => strContains q.portionDescription "1 cup")) = true ∧
    (compute ⟨"Egg, whole, boiled or poached", [],
        [⟨0, "1 cup"⟩, ⟨50, "1 egg"⟩]⟩ "egg" 1).found = true ∧
    (compute ⟨"Egg, whole, boiled or poached", [],
        [⟨0, "1 cup"⟩, ⟨50, "1 egg"⟩]⟩ "egg" 1).calculatedWeight = 225 := by
  have h : strContains "1 cup" "1 cup" = true := by decide
  have h2 : strContains "1 egg" "1 cup" = false := by decide
  have hres : resolveCupGrams "egg" [⟨0, "1 cup"⟩, ⟨50, "1 egg"⟩] =
      50 * (9 / 2) := by
    simp [resolveCupGrams, findCupPortion, eggFallbackGrams, h, h2]
  refine ⟨by decide, ?_, ?_⟩
  · rw [compute_of_ne_zero _ _ _ (by rw [hres]; norm_num)]
  · rw [compute_of_ne_zero _ _ _ (by rw [hres]; norm_num)]
    dsimp only
    rw [hres]
    norm_num

/-- Claim C3: each tracked output field (calories from code "208",
protein from "203", fat from "204", carbs from "205") equals that code's
per-100g amount times `calculated_grams / 100`; nutrients with other
codes have no effect, and an absent tracked code leaves the field at
zero. -/
theorem nutrient_scaling (nuts : List Nutrient) (g b : ℚ)
    (n₀ : Nutrient) :
    (calculateMacrosForGrams (nuts.filter isTracked) g b =
      calculateMacrosForGrams nuts g b) ∧
    ((nuts.filter fun n => n.number == "208") = [] →
      (calculateMacrosForGrams nuts g b).calories = 0) ∧
    ((nuts.filter fun n => n.number == "208") = [n₀] →
      (calculateMacrosForGrams nuts g b).calories =
        n₀.amount * (g / 100)) ∧
    ((nuts.filter fun n => n.number == "203") = [] →
      (calculateMacrosForGrams nuts g b).protein = 0) ∧
    ((nuts.filter fun n => n.number == "203") = [n₀] →
      (calculateMacrosForGrams nuts g b).protein =
        n₀.amount * (g / 100)) ∧
    ((nuts.filter fun n => n.number == "204") = [] →
      (calculateMacrosForGrams nuts g b).fat = 0) ∧
    ((nuts.filter fun n => n.number == "204") = [n₀] →
      (calculateMacrosForGrams nuts g b).fat = n₀.amount * (g / 100)) ∧
    ((nuts.filter fun n => n.number == "205") = [] →
      (calculateMacrosForGrams nuts g b).carbs = 0) ∧
    ((nuts.filter fun n => n.number == "205") = [n₀] →
      (calculateMacrosForGrams nuts g b).carbs =
        n₀.amount * (g / 100)) := by
  refine ⟨?_, ?_, ?_, ?_, ?_, ?_, ?_, ?_, ?_⟩
  · exact foldl_filter_tracked (g / 100) nuts ⟨0, 0, 0, 0⟩
  · intro h
    rw [calculateMacrosForGrams, foldl_calories, h]
    rfl
  · intro h
    rw [calculateMacrosForGrams, foldl_calories, h]
    rfl
  · intro h
    rw [calculateMacrosForGrams, foldl_protein, h]
    rfl
  · intro h
    rw [calculateMacrosForGrams, foldl_protein, h]
    rfl
  · intro h
    rw [calculateMacrosForGrams, foldl_fat, h]
    rfl
  · intro h
    rw [calculateMacrosForGrams, foldl_fat, h]
    rfl
  · intro h
    rw [calculateMacrosForGrams, foldl_carbs, h]
    rfl
  · intro h
    rw [calculateMacrosForGrams, foldl_carbs, h]
    rfl

/-- Claim C3 witness: a record holding one energy nutrient and one
untracked nutrient scales its calories exactly and the untracked code
changes nothing. -/
theorem nutrient_scaling_check :
    (calculateMacrosForGrams [⟨155, "208"⟩, ⟨7, "999"⟩] 200
        100).calories = (155 : ℚ) * (200 / 100) :=
  (nutrient_scaling [⟨155, "208"⟩, ⟨7, "999"⟩] 200 100
    ⟨155, "208"⟩).2.2.1 (by decide)

/-- Claim C4: a failed lookup, and likewise a cup-grams resolution that
ends at the zero sentinel, both produce the not-found record that echoes
the requested food and volume and leaves the weight and every macro field
at zero. -/
theorem unresolved_conversion_not_found
    (store : String → Option FoodData) (vol : Volume) (record : FoodData)
    (name : String) (v : ℚ) :
    (getFoodData store vol.objectName = none →
      processFoodVolume store vol =
        ⟨false, ⟨0, 0, 0, 0⟩, vol.objectName, vol.volumeCups, 0⟩) ∧
    (resolveCupGrams name record.foodPortions = 0 →
      compute record name v = ⟨false, ⟨0, 0, 0, 0⟩, name, v, 0⟩) := by
  constructor
  · intro h
    simp [processFoodVolume, h]
  · intro h
    exact compute_of_zero record name v h

/-- Claim C4 witness: an unrecognized food against an empty store yields
the not-found record. -/
theorem unresolved_conversion_not_found_check :
    processFoodVolume (fun _ => none) ⟨"tofu", 0, 2⟩ =
      ⟨false, ⟨0, 0, 0, 0⟩, "tofu", 2, 0⟩ :=
  (unresolved_conversion_not_found (fun _ => none) ⟨"tofu", 0, 2⟩
    ⟨"", [], []⟩ "x" 0).1 (by decide)

/-- Claim C5: the two end-to-end scenarios of the spec — the egg record
gives cup_grams 225, weight 450 and macros (697.5, 58.5, 49.5, 4.95) at
volume 2, and the banana record gives weight 225 and calories 200.25 at
volume 1.5. -/
theorem end_to_end_scenarios :
    (compute ⟨"Egg, whole, boiled or poached",
        [⟨155, "208"⟩, ⟨13, "203"⟩, ⟨11, "204"⟩, ⟨11 / 10, "205"⟩],
        [⟨50, "1 egg"⟩]⟩ "egg" 2 =
      ⟨true, ⟨1395 / 2, 99 / 20, 99 / 2, 117 / 2⟩, "egg", 2, 450⟩) ∧
    resolveCupGrams "egg" [⟨50, "1 egg"⟩] = 225 ∧
    (compute ⟨"Banana, raw", [⟨89, "208"⟩], [⟨150, "1 cup, sliced"⟩]⟩
        "banana" (3 / 2)).calculatedWeight = 225 ∧
    (compute ⟨"Banana, raw", [⟨89, "208"⟩], [⟨150, "1 cup, sliced"⟩]⟩
        "banana" (3 / 2)).macros.calories = 801 / 4 := by
  have h1 : strContains "1 egg" "1 cup" = false := by decide
  have h2 : strContains "1 cup, sliced" "1 cup" = true := by decide
  refine ⟨?_, ?_, ?_, ?_⟩ <;>
    · simp [compute, resolveCupGrams, findCupPortion, eggFallbackGrams,
        calculateMacrosForGrams, applyNutrient, h1, h2]
      norm_num

/-- Claim C6: the batch loop returns exactly one result per input item,
in input order, each computed from its own item alone. -/
theorem batch_preserves_items (store : String → Option FoodData)
    (volumes : List Volume) :
    (calculateMacros store volumes).length = volumes.length ∧
    ∀ i : ℕ, (calculateMacros store volumes)[i]? =
      (volumes[i]?).map (processFoodVolume store) := by
  constructor
  · simp [calculateMacros_eq_map]
  · intro i
    simp [calculateMacros_eq_map]

/-- Claim C7: the lookup recognizes exactly "egg", "rice" and "banana",
with the canonical catalog descriptions, and any other name yields `none`
before the store is consulted — so the answer for an unrecognized name is
the same whatever the store holds. -/
theorem closed_food_mapping :
    getSearchTerm "egg" = some "Egg, whole, boiled or poached" ∧
    getSearchTerm "rice" = some "Rice, cooked, NFS" ∧
    getSearchTerm "banana" = some "Banana, raw" ∧
    (∀ store, getFoodData store "egg" =
      store "Egg, whole, boiled or poached") ∧
    (∀ store, getFoodData store "rice" = store "Rice, cooked, NFS") ∧
    (∀ store, getFoodData store "banana" = store "Banana, raw") ∧
    (∀ name, name ≠ "egg" → name ≠ "rice" → name ≠ "banana" →
      ∀ store : String → Option FoodData,
        getFoodData store name = none) := by
  refine ⟨by decide, by decide, by decide, fun store => rfl,
    fun store => rfl, fun store => rfl, ?_⟩
  intro name h1 h2 h3 store
  simp [getFoodData, getSearchTerm, h1, h2, h3]

/-- Claim C7 witness: "tofu" is rejected even against a store that has a
record for every description. -/
theorem closed_food_mapping_check :
    getFoodData (fun t => some ⟨t, [], [⟨240, "1 cup"⟩]⟩) "tofu" = none :=
  closed_food_mapping.2.2.2.2.2.2 "tofu" (by decide) (by decide)
    (by decide) _

set_option linter.unusedVariables false in
/-- Claim C8: with a resolved non-zero cup_grams and a non-negative
volume, doubling the volume doubles the calculated weight and all four
macro fields; the claim's restriction to non-negative volumes is kept as
a hypothesis even though the scaling argument never needs it. -/
theorem doubling_volume_doubles_output (record : FoodData)
    (name : String) (v : ℚ)
    (hc : resolveCupGrams name record.foodPortions ≠ 0) (hv : 0 ≤ v) :
    (compute record name (2 * v)).calculatedWeight =
      2 * (compute record name v).calculatedWeight ∧
    (compute record name (2 * v)).macros.calories =
      2 * (compute record name v).macros.calories ∧
    (compute record name (2 * v)).macros.protein =
      2 * (compute record name v).macros.protein ∧
    (compute record name (2 * v)).macros.fat =
      2 * (compute record name v).macros.fat ∧
    (compute record name (2 * v)).macros.carbs =
      2 * (compute record name v).macros.carbs := by
  rw [compute_of_ne_zero record name (2 * v) hc,
    compute_of_ne_zero record name v hc]
  have hg : 2 * v * resolveCupGrams name record.foodPortions =
      2 * (v * resolveCupGrams name record.foodPortions) := by ring
  have hmac : calculateMacrosForGrams record.foodNutrients
      (2 * (v * resolveCupGrams name record.foodPortions))
      (resolveCupGrams name record.foodPortions) =
      scaleMacros 2 (calculateMacrosForGrams record.foodNutrients
        (v * resolveCupGrams name record.foodPortions)
        (resolveCupGrams name record.foodPortions)) := by
    unfold calculateMacrosForGrams
    have hr : 2 * (v * resolveCupGrams name record.foodPortions) / 100 =
        2 * (v * resolveCupGrams name record.foodPortions / 100) := by
      ring
    rw [hr]
    calc record.foodNutrients.foldl
          (applyNutrient
            (2 * (v * resolveCupGrams name record.foodPortions / 100)))
          ⟨0, 0, 0, 0⟩ =
        record.foodNutrients.foldl
          (applyNutrient
            (2 * (v * resolveCupGrams name record.foodPortions / 100)))
          (scaleMacros 2 ⟨0, 0, 0, 0⟩) := by
          norm_num [scaleMacros]
      _ = scaleMacros 2 (record.foodNutrients.foldl
            (applyNutrient
              (v * resolveCupGrams name record.foodPortions / 100))
            ⟨0, 0, 0, 0⟩) :=
          foldl_applyNutrient_scale 2
            (v * resolveCupGrams name record.foodPortions / 100)
            record.foodNutrients ⟨0, 0, 0, 0⟩
  dsimp only
  rw [hg, hmac]
  refine ⟨rfl, ?_, ?_, ?_, ?_⟩ <;> simp [scaleMacros]

/-- Claim C8 witness: doubling the volume from 1 to 2 on the banana
record doubles the calculated weight. -/
theorem doubling_volume_doubles_output_check :
    (compute ⟨"Banana, raw", [⟨89, "208"⟩], [⟨150, "1 cup, sliced"⟩]⟩
        "banana" (2 * 1)).calculatedWeight =
      2 * (compute ⟨"Banana, raw", [⟨89, "208"⟩],
        [⟨150, "1 cup, sliced"⟩]⟩ "banana" 1).calculatedWeight :=
  (doubling_volume_doubles_output
    ⟨"Banana, raw", [⟨89, "208"⟩], [⟨150, "1 cup, sliced"⟩]⟩ "banana" 1
    (by
      have h : strContains "1 cup, sliced" "1 cup" = true := by decide
      norm_num [resolveCupGrams, findCupPortion, h])
    (by norm_num)).1

/-- Claim C9: with a resolved non-zero cup_grams, volume zero still gives
`found = true`, with zero weight and all four macro fields zero. -/
theorem zero_volume_found (record : FoodData) (name : String)
    (hc : resolveCupGrams name record.foodPortions ≠ 0) :
    compute record name 0 = ⟨true, ⟨0, 0, 0, 0⟩, name, 0, 0⟩ := by
  rw [compute_of_ne_zero record name 0 hc]
  simp [calculateMacrosForGrams_zero]

/-- Claim C9 witness: a rice record with a usable cup portion at volume
zero. -/
theorem zero_volume_found_check :
    compute ⟨"Rice, cooked, NFS", [⟨10, "208"⟩], [⟨200, "1 cup"⟩]⟩
      "rice" 0 = ⟨true, ⟨0, 0, 0, 0⟩, "rice", 0, 0⟩ :=
  zero_volume_found
    ⟨"Rice, cooked, NFS", [⟨10, "208"⟩], [⟨200, "1 cup"⟩]⟩ "rice"
    (by
      have h : strContains "1 cup" "1 cup" = true := by decide
      norm_num [resolveCupGrams, findCupPortion, h])

/-- Claim C10: the uncertainty_cups field never influences the result —
two items agreeing on object name and volume produce identical outputs
whatever their uncertainties. -/
theorem uncertainty_no_influence (store : String → Option FoodData)
    (v₁ v₂ : Volume) (hn : v₁.objectName = v₂.objectName)
    (hv : v₁.volumeCups = v₂.volumeCups) :
    processFoodVolume store v₁ = processFoodVolume store v₂ := by
  unfold processFoodVolume
  rw [hn, hv]

/-- Claim C10 witness: two egg items differing only in uncertainty give
the same output. -/
theorem uncertainty_no_influence_check :
    processFoodVolume (fun _ => none) ⟨"egg", 0, 1⟩ =
      processFoodVolume (fun _ => none) ⟨"egg", 7, 1⟩ :=
  uncertainty_no_influence (fun _ => none) ⟨"egg", 0, 1⟩ ⟨"egg", 7, 1⟩
    rfl rfl
